import Mathlib

set_option linter.unusedVariables false

/-! Shallow embedding of the contact-book program (source file Contact_book.py).
Mutating methods are modelled by state passing: a method that may raise returns
the state at exit together with an Except value. The display-only View
collaborator is not modelled. -/

/-- Python exceptions raised by the data-model layer: ValueError with its
message, and IndexError. -/
inductive PyErr where
  | valueError (msg : String)
  | indexError
deriving DecidableEq

/-- ASCII digit test on a character: code point between 48 and 57. -/
def asciiDigit (c : Char) : Bool := 48 ≤ c.toNat && c.toNat ≤ 57

/-- Character test of the Python builtin str.isdigit. Python accepts every
character of Unicode Numeric_Type Decimal or Digit, a strict superset of the
ASCII digits; beyond ASCII this development enumerates the Arabic-Indic digits
U+0660 to U+0669, the representatives it needs. The further accepted
characters (digits of other scripts, superscripts) all lie at code points of
at least U+00B2, so on ASCII input this model agrees exactly with Python. -/
def pyIsDigitChar (c : Char) : Bool := asciiDigit c || (1632 ≤ c.toNat && c.toNat ≤ 1641)

/-- Python str.isdigit on a whole string: nonempty and every character a
digit character. -/
def pyStrIsDigit (s : String) : Bool := !s.data.isEmpty && s.data.all pyIsDigitChar

/-- Phone field: wraps the phone-number string (source class Phone). -/
structure Phone where
  value : String
deriving DecidableEq

/-- Source Phone.is_valid: value.isdigit() and len(value) == 10. -/
def Phone.is_valid (value : String) : Bool := pyStrIsDigit value && value.length == 10

/-- Source Phone constructor: raises ValueError when validation fails. -/
def Phone.new (value : String) : Except PyErr Phone :=
  if Phone.is_valid value then .ok ⟨value⟩
  else .error (.valueError "Invalid phone number. Should contain 10 digits.")

/-- Birthday field: wraps the date string (source class Birthday). -/
structure Birthday where
  value : String
deriving DecidableEq

/-- Gregorian leap-year rule, as used by Python datetime. -/
def isLeap (y : Nat) : Bool := y % 4 == 0 && (y % 100 != 0 || y % 400 == 0)

/-- Number of days in month m of year y, as used by Python datetime. -/
def daysInMonth (y m : Nat) : Nat :=
  if m = 2 then (if isLeap y then 29 else 28)
  else if m = 4 ∨ m = 6 ∨ m = 9 ∨ m = 11 then 30
  else 31

/-- Split a character list at every dot, keeping empty fields. -/
def splitDots : List Char → List (List Char)
  | [] => [[]]
  | c :: rest =>
    if c = '.' then [] :: splitDots rest
    else
      match splitDots rest with
      | [] => [[c]]
      | f :: fs => (c :: f) :: fs

/-- Numeric value of a list of ASCII digit characters. -/
def natOfDigits (l : List Char) : Nat := l.foldl (fun n c => n * 10 + (c.toNat - 48)) 0

/-- Parse of datetime.strptime(s, percent-d.percent-m.percent-Y) in CPython:
the day group matches one or two digits with value 1 to 31, the month group
one or two digits with value 1 to 12, the year group exactly four digits, the
dots are literal, the whole string must be consumed, and the resulting triple
must form a real datetime (year at least 1, day at most the month length).
Modelled for ASCII input; the non-ASCII digit forms strptime additionally
tolerates are not needed by any theorem below. -/
def parseBirthday (s : String) : Option (Nat × Nat × Nat) :=
  match splitDots s.data with
  | [df, mf, yf] =>
    if df.all asciiDigit && (df.length == 1 || df.length == 2) &&
       mf.all asciiDigit && (mf.length == 1 || mf.length == 2) &&
       yf.all asciiDigit && yf.length == 4 then
      let d := natOfDigits df
      let m := natOfDigits mf
      let y := natOfDigits yf
      if 1 ≤ d && d ≤ 31 && 1 ≤ m && m ≤ 12 && 1 ≤ y && d ≤ daysInMonth y m then
        some (d, m, y)
      else none
    else none
  | _ => none

/-- Source Birthday.is_valid: datetime.strptime(value, percent-d.percent-m.percent-Y)
succeeds. -/
def Birthday.is_valid (value : String) : Bool := (parseBirthday value).isSome

/-- Source Birthday constructor: raises ValueError when validation fails. -/
def Birthday.new (value : String) : Except PyErr Birthday :=
  if Birthday.is_valid value then .ok ⟨value⟩
  else .error (.valueError "Invalid date format. Use DD.MM.YYYY.")

/-- One contact record: name, ordered phone list, optional birthday
(source class Record; a fresh record has an empty phone list and no
birthday). -/
structure Record where
  name : String
  phones : List Phone
  birthday : Option Birthday
deriving DecidableEq

/-- Source Record.find_phone: first phone whose value equals the argument. -/
def Record.find_phone (r : Record) (phone : String) : Option Phone :=
  r.phones.find? (fun p => p.value == phone)

/-- Removal of the first phone whose value equals v. The source removes
the object returned by find_phone via list.remove, which deletes the first
element identical to it; since that object is the first element with the
sought value, exactly the first value match is deleted. -/
def removeFirstPhone : List Phone → String → List Phone
  | [], _ => []
  | p :: ps, v => if p.value == v then ps else p :: removeFirstPhone ps v

/-- Source Record.add_phone: construct a Phone (which may raise) and append
it to the phone list. -/
def Record.add_phone (r : Record) (phone : String) : Record × Except PyErr Unit :=
  match Phone.new phone with
  | .ok p => ({ r with phones := r.phones ++ [p] }, .ok ())
  | .error e => (r, .error e)

/-- Source Record.remove_phone: delete the first match, or raise ValueError
when the phone is absent. -/
def Record.remove_phone (r : Record) (phone : String) : Record × Except PyErr Unit :=
  match r.find_phone phone with
  | some _ => ({ r with phones := removeFirstPhone r.phones phone }, .ok ())
  | none => (r, .error (.valueError "The phone is absent"))

/-- Source Record.edit_phone: validate the new number first (raising before
any mutation), then require the old number to be present, then remove the
old and append the new; the inner remove and add cannot raise on this path
since the old number was just found and the new number was just validated. -/
def Record.edit_phone (r : Record) (old_phone new_phone : String) : Record × Except PyErr String :=
  if Phone.is_valid new_phone = false then
    (r, .error (.valueError "Invalid number. Should contain 10 digits."))
  else
    match r.find_phone old_phone with
    | some _ =>
      let r1 := (r.remove_phone old_phone).1
      let r2 := (r1.add_phone new_phone).1
      (r2, .ok ("Phone number updated: " ++ old_phone ++ " -> " ++ new_phone))
    | none => (r, .error (.valueError "The old phone is not found"))

/-- Source Record.show_birthday. -/
def Record.show_birthday (r : Record) : String :=
  match r.birthday with
  | some b => b.value
  | none => "Birthday not set."

/-- Every phone held by the record passes validation. -/
def validPhones (r : Record) : Bool := r.phones.all (fun p => Phone.is_valid p.value)

/-- The address book: a Python dict from name to record, modelled as the
insertion-ordered list of records, keyed by the name field. -/
structure AddressBook where
  data : List Record
deriving DecidableEq

/-- Source AddressBook.find: dict get by name. -/
def AddressBook.find (book : AddressBook) (name : String) : Option Record :=
  book.data.find? (fun r => r.name == name)

/-- Python dict assignment: replace the entry with the same key in place,
else append at the end. -/
def dictInsert (l : List Record) (r : Record) : List Record :=
  if l.any (fun x => x.name == r.name) then
    l.map (fun x => if x.name == r.name then r else x)
  else l ++ [r]

/-- Source AddressBook.add_record: store the record under its name
(the displayed confirmation message is view-only and not modelled). -/
def AddressBook.add_record (book : AddressBook) (r : Record) : AddressBook :=
  ⟨dictInsert book.data r⟩

/-- Calendar date, standing for a Python datetime at midnight: the scan
compares datetimes produced by strptime and replace, which carry zero time
of day, so whole-day differences are exact. -/
structure Date where
  year : Nat
  month : Nat
  day : Nat
deriving DecidableEq

/-- Day of the year of the given day and month in year y. -/
def dayOfYear (y m d : Nat) : Nat :=
  (List.range (m - 1)).foldl (fun acc i => acc + daysInMonth y (i + 1)) 0 + d

/-- Proleptic Gregorian ordinal of a date, as used by Python datetime
subtraction. -/
def ordinal (y m d : Nat) : Nat :=
  365 * (y - 1) + ((y - 1) / 4 - (y - 1) / 100 + (y - 1) / 400) + dayOfYear y m d

/-- Signed day count from today to day d of month m in the year of today:
the .days of the timedelta the source computes. -/
def dayDiff (today : Date) (d m : Nat) : Int :=
  (ordinal today.year m d : Int) - (ordinal today.year today.month today.day : Int)

/-- Zero-padded two-digit rendering (strftime percent-d, percent-m). -/
def pad2 (n : Nat) : String := if n < 10 then "0" ++ toString n else toString n

/-- Zero-padded four-digit rendering (strftime percent-Y). -/
def pad4 (n : Nat) : String :=
  (if n < 10 then "000" else if n < 100 then "00" else if n < 1000 then "0" else "") ++ toString n

/-- One line of the upcoming-birthday listing: name, colon, the this-year
date in DD.MM.YYYY. -/
def bdayLine (name : String) (d m y : Nat) : String :=
  name ++ ": " ++ pad2 d ++ "." ++ pad2 m ++ "." ++ pad4 y

/-- Body of the scan in source AddressBook.get_upcoming_birthdays: walk the
records in order; for a record with a birthday, strptime the stored string
(raising on an unparsable one), build this-year of the birthday via
datetime.replace, which raises ValueError when the stored day does not exist
in that month of the current year (Feb 29 in a non-leap year), and keep the
record when the day difference lies between 0 and 7. A raise aborts the
whole walk. -/
def collectUpcoming (today : Date) : List Record → Except PyErr (List String)
  | [] => .ok []
  | r :: rs =>
    match r.birthday with
    | none => collectUpcoming today rs
    | some b =>
      match parseBirthday b.value with
      | none => .error (.valueError ("time data " ++ b.value ++ " does not match format"))
      | some (d, m, _) =>
        if d ≤ daysInMonth today.year m then
          if 0 ≤ dayDiff today d m ∧ dayDiff today d m ≤ 7 then
            match collectUpcoming today rs with
            | .ok l => .ok (bdayLine r.name d m today.year :: l)
            | .error e => .error e
          else collectUpcoming today rs
        else .error (.valueError "day is out of range for month")

/-- Source AddressBook.get_upcoming_birthdays: run the scan; on success
return the newline-joined lines, or the fixed message when none qualified. -/
def AddressBook.get_upcoming_birthdays (book : AddressBook) (today : Date) : Except PyErr String :=
  match collectUpcoming today book.data with
  | .error e => .error e
  | .ok l => .ok (if l.isEmpty then "No birthdays in the next week." else String.intercalate "\n" l)

/-- Source input_error wrapper: a caught exception becomes a one-line
error string. -/
def pyErrMessage : PyErr → String
  | .valueError m => "Error: " ++ m
  | .indexError => "Error: Not enough arguments."

/-- Source handler birthdays, wrapped by input_error. -/
def birthdays (book : AddressBook) (today : Date) : String :=
  match book.get_upcoming_birthdays today with
  | .ok s => s
  | .error e => pyErrMessage e

/-- Source handler add_contact, wrapped by input_error: a missing record is
created and inserted into the book before the phone is validated; since the
stored object and the local one are the same Python object, a successful
add_phone is modelled by re-inserting the updated record under its
unchanged key. With fewer than two arguments the tuple unpacking raises
ValueError, caught by the wrapper. -/
def add_contact (args : List String) (book : AddressBook) : AddressBook × String :=
  match args with
  | name :: phone :: _ =>
    let step :=
      match book.find name with
      | none =>
        let r : Record := ⟨name, [], none⟩
        (r, book.add_record r, "Contact added.")
      | some r => (r, book, "Contact updated.")
    match step.1.add_phone phone with
    | (r2, .ok _) => (step.2.1.add_record r2, step.2.2)
    | (_, .error e) => (step.2.1, pyErrMessage e)
  | _ =>
    (book, "Error: not enough values to unpack (expected at least 2, got " ++
      toString args.length ++ ")")

/-- Outcome of loading the persistence target: the file may be absent, be
present but unreadable by pickle, or hold a pickled book. -/
inductive LoadErr where
  | fileNotFound
  | unpicklingError
deriving DecidableEq

/-- State of the persistence target file. Pickle serialization is opaque
binary, so the file is modelled as holding the pickled object graph itself:
pickle round-trips these plain record objects faithfully. -/
inductive FileState where
  | absent
  | corrupt
  | stored (book : AddressBook)
deriving DecidableEq

/-- Reading and unpickling the target file: open raises FileNotFoundError
on an absent file, pickle.load raises UnpicklingError on corrupt content. -/
def readPickleFile : FileState → Except LoadErr AddressBook
  | .absent => .error .fileNotFound
  | .corrupt => .error .unpicklingError
  | .stored b => .ok b

/-- Source save_data: pickle.dump of the whole book over the target. -/
def save_data (book : AddressBook) : FileState := .stored book

/-- Source load_data: try to read and unpickle; only FileNotFoundError is
caught, yielding a fresh empty book; any other failure propagates. -/
def load_data (fs : FileState) : Except LoadErr AddressBook :=
  match readPickleFile fs with
  | .ok b => .ok b
  | .error .fileNotFound => .ok ⟨[]⟩
  | .error e => .error e

/-! Specification-side definitions, written from the words of the
specification, to be compared with the source-derived definitions above. -/

/-- Written from the specification text: the string matches the fixed
pattern DD.MM.YYYY, two digit characters, a dot, two digit characters, a
dot, four digit characters. -/
def specStrictDDMMYYYY (s : String) : Bool :=
  match s.data with
  | [d1, d2, p1, m1, m2, p2, y1, y2, y3, y4] =>
    p1 == '.' && p2 == '.' &&
      (asciiDigit d1 && asciiDigit d2 && asciiDigit m1 && asciiDigit m2 &&
       asciiDigit y1 && asciiDigit y2 && asciiDigit y3 && asciiDigit y4)
  | _ => false

/-- Day denoted by the first two characters of a DD.MM.YYYY string. -/
def specStrictDay (s : String) : Nat :=
  match s.data with
  | d1 :: d2 :: _ => (d1.toNat - 48) * 10 + (d2.toNat - 48)
  | _ => 0

/-- Month denoted by characters four and five of a DD.MM.YYYY string. -/
def specStrictMonth (s : String) : Nat :=
  match s.data with
  | _ :: _ :: _ :: m1 :: m2 :: _ => (m1.toNat - 48) * 10 + (m2.toNat - 48)
  | _ => 0

/-- Year denoted by the last four characters of a DD.MM.YYYY string. -/
def specStrictYear (s : String) : Nat :=
  match s.data with
  | _ :: _ :: _ :: _ :: _ :: _ :: y1 :: y2 :: y3 :: y4 :: _ =>
    (((y1.toNat - 48) * 10 + (y2.toNat - 48)) * 10 + (y3.toNat - 48)) * 10 + (y4.toNat - 48)
  | _ => 0

/-- Written from the specification text: the triple denotes a real calendar
date in the datetime range, month 1 to 12, day 1 up to the month length,
year 1 to 9999. -/
def realCalendarDate (d m y : Nat) : Bool :=
  1 ≤ d && 1 ≤ m && m ≤ 12 && 1 ≤ y && y ≤ 9999 && d ≤ daysInMonth y m

/-! Helper lemmas shared by the claim theorems. -/

theorem daysInMonth_le_31 (y m : Nat) : daysInMonth y m ≤ 31 := by
  unfold daysInMonth
  split
  · split <;> omega
  · split <;> omega

theorem asciiDigit_bounds (c : Char) (h : asciiDigit c = true) :
    48 ≤ c.toNat ∧ c.toNat ≤ 57 := by
  simp [asciiDigit] at h
  exact h

theorem asciiDigit_ne_dot (c : Char) (h : asciiDigit c = true) : ¬(c = '.') := by
  intro he
  rw [he] at h
  exact absurd h (by decide)

theorem all_pyIsDigitChar_of_ascii (l : List Char) (h : ∀ c ∈ l, c.toNat < 128) :
    l.all pyIsDigitChar = l.all asciiDigit := by
  induction l with
  | nil => rfl
  | cons c cs ih =>
    have hc : c.toNat < 128 := h c (List.mem_cons_self c cs)
    have hcs : ∀ x ∈ cs, x.toNat < 128 := fun x hx => h x (List.mem_cons_of_mem c hx)
    have hpy : pyIsDigitChar c = asciiDigit c := by
      simp only [pyIsDigitChar]
      have : ¬(1632 ≤ c.toNat) := by omega
      simp [this]
    simp [List.all_cons, hpy, ih hcs]

theorem find_none_any_false (l : List Record) (name : String)
    (h : l.find? (fun r => r.name == name) = none) :
    l.any (fun x => x.name == name) = false := by
  induction l with
  | nil => rfl
  | cons r rs ih =>
    cases hp : (r.name == name) with
    | true => simp [List.find?, hp] at h
    | false =>
      simp only [List.find?, hp] at h
      simp [List.any_cons, hp, ih h]

theorem find_append_last (l : List Record) (name : String) (r : Record)
    (h : l.find? (fun x => x.name == name) = none) (hr : (r.name == name) = true) :
    (l ++ [r]).find? (fun x => x.name == name) = some r := by
  induction l with
  | nil => simp [List.find?, hr]
  | cons a as ih =>
    cases hp : (a.name == name) with
    | true => simp [List.find?, hp] at h
    | false =>
      simp only [List.find?, hp] at h
      simp only [List.cons_append, List.find?, hp]
      exact ih h

theorem removeFirstPhone_length (l : List Phone) (v : String)
    (h : (l.find? (fun p => p.value == v)).isSome = true) :
    (removeFirstPhone l v).length + 1 = l.length := by
  induction l with
  | nil => simp [List.find?] at h
  | cons p ps ih =>
    cases hp : (p.value == v) with
    | true => simp [removeFirstPhone, hp]
    | false =>
      simp only [List.find?, hp] at h
      simp only [removeFirstPhone, hp, if_neg]
      simp [List.length_cons, ih h]

theorem removeFirstPhone_mem (l : List Phone) (v : String) (p : Phone)
    (h : p ∈ removeFirstPhone l v) : p ∈ l := by
  induction l with
  | nil => simp [removeFirstPhone] at h
  | cons q qs ih =>
    by_cases hq : (q.value == v) = true
    · simp only [removeFirstPhone, hq, if_pos] at h
      exact List.mem_cons_of_mem q h
    · simp only [removeFirstPhone, hq, if_neg] at h
      rcases List.mem_cons.mp h with h1 | h2
      · exact h1 ▸ List.mem_cons_self q qs
      · exact List.mem_cons_of_mem q (ih h2)

theorem removeFirstPhone_countP_zero (l : List Phone) (v : String)
    (h : l.countP (fun p => p.value == v) = 1) :
    (removeFirstPhone l v).countP (fun p => p.value == v) = 0 := by
  induction l with
  | nil => simp [removeFirstPhone]
  | cons q qs ih =>
    rw [List.countP_cons] at h
    cases hq : (q.value == v) with
    | true =>
      rw [hq] at h
      simp at h
      simp [removeFirstPhone, hq]
      exact h
    | false =>
      rw [hq] at h
      simp at h
      simp [removeFirstPhone, hq, List.countP_cons, ih h]

theorem edit_phone_found (r : Record) (old_phone new_phone : String)
    (hval : Phone.is_valid new_phone = true)
    (p : Phone) (hp : r.find_phone old_phone = some p) :
    r.edit_phone old_phone new_phone =
      ({ r with phones := removeFirstPhone r.phones old_phone ++ [⟨new_phone⟩] },
       .ok ("Phone number updated: " ++ old_phone ++ " -> " ++ new_phone)) := by
  simp [Record.edit_phone, hval, hp, Record.remove_phone, Record.add_phone, Phone.new]

theorem allValid_removeFirst (l : List Phone) (v : String)
    (h : l.all (fun p => Phone.is_valid p.value) = true) :
    (removeFirstPhone l v).all (fun p => Phone.is_valid p.value) = true := by
  rw [List.all_eq_true] at h ⊢
  exact fun p hp => h p (removeFirstPhone_mem l v p hp)

/-- C5: load on an absent target yields a fresh empty book without an error;
load on a corrupt target propagates the unpickling failure uncaught. -/
theorem load_cold_start_corrupt_propagates :
    load_data FileState.absent = Except.ok ⟨[]⟩ ∧
    load_data FileState.corrupt = Except.error LoadErr.unpicklingError :=
  ⟨rfl, rfl⟩

/-- C6: loading the file produced by save returns a book whose records agree
field for field with the saved one: same names, same phone sequences in the
same order, same optional birthday. -/
theorem save_load_roundtrip (book : AddressBook) :
    ∃ book2, load_data (save_data book) = Except.ok book2 ∧
      book2.data.map (fun r => r.name) = book.data.map (fun r => r.name) ∧
      book2.data.map (fun r => r.phones.map (fun p => p.value)) =
        book.data.map (fun r => r.phones.map (fun p => p.value)) ∧
      book2.data.map (fun r => r.birthday) = book.data.map (fun r => r.birthday) :=
  ⟨book, rfl, rfl, rfl, rfl⟩

/-- C7: edit_phone with an invalid new number fails with the format error
and returns the record with its phone sequence exactly as before. -/
theorem edit_phone_invalid_new (r : Record) (old_phone new_phone : String)
    (h : Phone.is_valid new_phone = false) :
    r.edit_phone old_phone new_phone =
      (r, Except.error (PyErr.valueError "Invalid number. Should contain 10 digits.")) := by
  simp [Record.edit_phone, h]

/-- Witness for C7 at a concrete record and an invalid new number. -/
theorem edit_phone_invalid_new_witness :
    Phone.is_valid "123" = false ∧
    Record.edit_phone ⟨"Alice", [⟨"0501234567"⟩], none⟩ "0501234567" "123" =
      (⟨"Alice", [⟨"0501234567"⟩], none⟩,
       Except.error (PyErr.valueError "Invalid number. Should contain 10 digits.")) :=
  ⟨rfl, edit_phone_invalid_new _ _ _ rfl⟩

/-- C1: evaluation at the failing input: a book holding a Feb 29 birthday
and a qualifying Jan 5 birthday, scanned from reference date 01.01.2025 (not
a leap year), makes the whole scan raise day-out-of-range; the wrapped
handler turns the whole query into one error string and the qualifying
record is never reported, although alone it would be. -/
theorem birthdays_feb29_aborts_scan :
    AddressBook.get_upcoming_birthdays
        ⟨[⟨"A", [], some ⟨"29.02.2024"⟩⟩, ⟨"B", [], some ⟨"05.01.2000"⟩⟩]⟩ ⟨2025, 1, 1⟩ =
      Except.error (PyErr.valueError "day is out of range for month") ∧
    birthdays ⟨[⟨"A", [], some ⟨"29.02.2024"⟩⟩, ⟨"B", [], some ⟨"05.01.2000"⟩⟩]⟩ ⟨2025, 1, 1⟩ =
      "Error: day is out of range for month" ∧
    AddressBook.get_upcoming_birthdays ⟨[⟨"B", [], some ⟨"05.01.2000"⟩⟩]⟩ ⟨2025, 1, 1⟩ =
      Except.ok "B: 05.01.2025" :=
  ⟨rfl, rfl, rfl⟩

/-- C3 counterexample: after a successful edit the old value can remain in
the sequence: with a duplicated old number only the first copy is replaced,
and with old equal to new the value trivially stays present. -/
theorem edit_phone_old_can_remain :
    ((Record.edit_phone ⟨"A", [⟨"0000000000"⟩, ⟨"0000000000"⟩], none⟩ "0000000000"
        "1111111111").2 = Except.ok "Phone number updated: 0000000000 -> 1111111111") ∧
    ((Record.edit_phone ⟨"A", [⟨"0000000000"⟩, ⟨"0000000000"⟩], none⟩ "0000000000"
        "1111111111").1.phones.any (fun p => p.value == "0000000000") = true) ∧
    ((Record.edit_phone ⟨"S", [⟨"0000000000"⟩], none⟩ "0000000000" "0000000000").2 =
      Except.ok "Phone number updated: 0000000000 -> 0000000000") ∧
    ((Record.edit_phone ⟨"S", [⟨"0000000000"⟩], none⟩ "0000000000"
        "0000000000").1.phones.any (fun p => p.value == "0000000000") = true) :=
  ⟨rfl, rfl, rfl, rfl⟩

/-- C3 (amended): a successful edit keeps the length, appends the new value
(so it is present), affects exactly the first occurrence of the old value
and no other element; the old value is absent afterwards provided it
occurred exactly once and differs from the new value. -/
theorem edit_phone_first_occurrence (r : Record) (old_phone new_phone : String)
    (hval : Phone.is_valid new_phone = true)
    (hfind : (r.find_phone old_phone).isSome = true) :
    (r.edit_phone old_phone new_phone).2 =
        Except.ok ("Phone number updated: " ++ old_phone ++ " -> " ++ new_phone) ∧
    (r.edit_phone old_phone new_phone).1.phones.length = r.phones.length ∧
    (r.edit_phone old_phone new_phone).1.phones =
      removeFirstPhone r.phones old_phone ++ [⟨new_phone⟩] ∧
    (r.edit_phone old_phone new_phone).1.phones.any (fun p => p.value == new_phone) = true ∧
    (r.phones.countP (fun p => p.value == old_phone) = 1 → ¬(old_phone = new_phone) →
      (r.edit_phone old_phone new_phone).1.phones.all (fun p => !(p.value == old_phone)) = true) := by
  obtain ⟨p, hp⟩ := Option.isSome_iff_exists.mp hfind
  have he := edit_phone_found r old_phone new_phone hval p hp
  rw [he]
  have hlen : (removeFirstPhone r.phones old_phone).length + 1 = r.phones.length :=
    removeFirstPhone_length r.phones old_phone hfind
  refine ⟨rfl, ?_, rfl, ?_, ?_⟩
  · simp only [List.length_append, List.length_cons, List.length_nil]
    omega
  · simp [List.any_append]
  · intro hcount hne
    have hz := removeFirstPhone_countP_zero r.phones old_phone hcount
    rw [List.countP_eq_zero] at hz
    rw [List.all_append]
    have h1 : (removeFirstPhone r.phones old_phone).all
        (fun p => !(p.value == old_phone)) = true := by
      rw [List.all_eq_true]
      intro q hq
      have := hz q hq
      simp only [Bool.not_eq_true] at this ⊢
      simp [this]
    have h2 : ([(⟨new_phone⟩ : Phone)]).all (fun p => !(p.value == old_phone)) = true := by
      simp
      intro hcontra
      exact hne hcontra.symm
    rw [h1, h2]
    rfl

/-- Witness for C3 at a concrete record holding the old number once. -/
theorem edit_phone_first_occurrence_witness :
    Phone.is_valid "1111111111" = true ∧
    ((⟨"W", [⟨"0000000000"⟩], none⟩ : Record).find_phone "0000000000").isSome = true ∧
    ((Record.edit_phone ⟨"W", [⟨"0000000000"⟩], none⟩ "0000000000" "1111111111").2 =
        Except.ok ("Phone number updated: " ++ "0000000000" ++ " -> " ++ "1111111111") ∧
      (Record.edit_phone ⟨"W", [⟨"0000000000"⟩], none⟩ "0000000000"
          "1111111111").1.phones.length =
        ([(⟨"0000000000"⟩ : Phone)]).length ∧
      (Record.edit_phone ⟨"W", [⟨"0000000000"⟩], none⟩ "0000000000" "1111111111").1.phones =
        removeFirstPhone [(⟨"0000000000"⟩ : Phone)] "0000000000" ++ [⟨"1111111111"⟩] ∧
      (Record.edit_phone ⟨"W", [⟨"0000000000"⟩], none⟩ "0000000000"
          "1111111111").1.phones.any (fun p => p.value == "1111111111") = true ∧
      (([(⟨"0000000000"⟩ : Phone)]).countP (fun p => p.value == "0000000000") = 1 →
        ¬("0000000000" = "1111111111") →
        (Record.edit_phone ⟨"W", [⟨"0000000000"⟩], none⟩ "0000000000"
            "1111111111").1.phones.all (fun p => !(p.value == "0000000000")) = true)) :=
  ⟨rfl, rfl, edit_phone_first_occurrence ⟨"W", [⟨"0000000000"⟩], none⟩ "0000000000" "1111111111" rfl rfl⟩

/-- C10: a fresh record holds only valid phones (it holds none), and each of
add_phone, remove_phone and edit_phone preserves the invariant that every
stored phone passes validation, because Phone construction rejects any value
failing validation. -/
theorem phones_invariant :
    (∀ name : String, validPhones ⟨name, [], none⟩ = true) ∧
    (∀ (r : Record) (s old_phone new_phone : String), validPhones r = true →
      validPhones (r.add_phone s).1 = true ∧
      validPhones (r.remove_phone s).1 = true ∧
      validPhones (r.edit_phone old_phone new_phone).1 = true) := by
  constructor
  · intro name; rfl
  · intro r s old_phone new_phone hv
    refine ⟨?_, ?_, ?_⟩
    · cases hval : Phone.is_valid s with
      | false => simp [Record.add_phone, Phone.new, hval, hv]
      | true =>
        simp only [Record.add_phone, Phone.new, hval, if_pos]
        rw [validPhones] at hv ⊢
        rw [List.all_append, hv]
        simp only [Bool.true_and, List.all_cons, List.all_nil, Bool.and_true]
        exact hval
    · cases hf : r.find_phone s with
      | none => simp [Record.remove_phone, hf, hv]
      | some p =>
        simp only [Record.remove_phone, hf]
        rw [validPhones] at hv ⊢
        exact allValid_removeFirst r.phones s hv
    · cases hval : Phone.is_valid new_phone with
      | false => simp [Record.edit_phone, hval, hv]
      | true =>
        cases hf : r.find_phone old_phone with
        | none => simp [Record.edit_phone, hval, hf, hv]
        | some p =>
          rw [edit_phone_found r old_phone new_phone hval p hf]
          rw [validPhones] at hv ⊢
          simp only [List.all_append]
          rw [allValid_removeFirst r.phones old_phone hv]
          simp [hval]

/-- Witness for C10 at a concrete record with one valid phone. -/
theorem phones_invariant_witness :
    validPhones ⟨"V", [⟨"0501234567"⟩], none⟩ = true ∧
    (validPhones ((⟨"V", [⟨"0501234567"⟩], none⟩ : Record).add_phone "0509999999").1 = true ∧
     validPhones ((⟨"V", [⟨"0501234567"⟩], none⟩ : Record).remove_phone "0501234567").1 = true ∧
     validPhones ((⟨"V", [⟨"0501234567"⟩], none⟩ : Record).edit_phone "0501234567"
        "0509999999").1 = true) :=
  ⟨rfl, phones_invariant.2 ⟨"V", [⟨"0501234567"⟩], none⟩ "0509999999" "0501234567" "0509999999" rfl⟩

/-- C9: invoking the add handler with a fresh name and an invalid phone
returns an error string, yet the book now holds a record for that name with
an empty phone list, and a later add for the same name with a valid phone
reports an update, not an addition. -/
theorem add_contact_inserts_on_invalid_phone (book : AddressBook)
    (name phone phone2 : String)
    (h1 : book.find name = none) (h2 : Phone.is_valid phone = false)
    (h3 : Phone.is_valid phone2 = true) :
    (add_contact [name, phone] book).2 =
        "Error: Invalid phone number. Should contain 10 digits." ∧
    (add_contact [name, phone] book).1.find name = some ⟨name, [], none⟩ ∧
    (add_contact [name, phone2] (add_contact [name, phone] book).1).2 = "Contact updated." := by
  rw [AddressBook.find] at h1
  have hany := find_none_any_false book.data name h1
  have hins : dictInsert book.data ⟨name, [], none⟩ = book.data ++ [⟨name, [], none⟩] := by
    simp [dictInsert, hany]
  have hfind2 : (AddressBook.mk (book.data ++ [⟨name, [], none⟩])).find name =
      some ⟨name, [], none⟩ := by
    rw [AddressBook.find]
    exact find_append_last book.data name ⟨name, [], none⟩ h1 (by simp)
  have hstep : add_contact [name, phone] book =
      (⟨book.data ++ [⟨name, [], none⟩]⟩, "Error: Invalid phone number. Should contain 10 digits.") := by
    simp only [add_contact, AddressBook.find, h1, Record.add_phone, Phone.new, h2,
      Bool.false_eq_true, AddressBook.add_record, hins, pyErrMessage]
    simp
  rw [hstep]
  refine ⟨rfl, hfind2, ?_⟩
  simp only [add_contact, hfind2, Record.add_phone, Phone.new, h3, if_pos]

/-- Witness for C9: empty book, fresh name, invalid then valid phone. -/
theorem add_contact_inserts_on_invalid_phone_witness :
    (AddressBook.mk []).find "Alice" = none ∧
    Phone.is_valid "123" = false ∧
    Phone.is_valid "0501234567" = true ∧
    ((add_contact ["Alice", "123"] ⟨[]⟩).2 =
        "Error: Invalid phone number. Should contain 10 digits." ∧
      (add_contact ["Alice", "123"] ⟨[]⟩).1.find "Alice" = some ⟨"Alice", [], none⟩ ∧
      (add_contact ["Alice", "0501234567"] (add_contact ["Alice", "123"] ⟨[]⟩).1).2 =
        "Contact updated.") :=
  ⟨rfl, rfl, rfl,
    add_contact_inserts_on_invalid_phone ⟨[]⟩ "Alice" "123" "0501234567" rfl rfl rfl⟩

/-- C4 counterexample: ten Arabic-Indic digit characters (U+0660), which the
Python str.isdigit accepts, validate as a phone although not one character
is an ASCII digit. -/
theorem phone_valid_nonascii_digits :
    Phone.is_valid "٠٠٠٠٠٠٠٠٠٠" = true ∧
    ("٠٠٠٠٠٠٠٠٠٠" : String).length = 10 ∧
    ("٠٠٠٠٠٠٠٠٠٠" : String).data.all asciiDigit = false :=
  ⟨rfl, rfl, rfl⟩

/-- C4 (amended): restricted to strings of ASCII characters, validation
holds exactly of the strings of length ten consisting solely of ASCII
digits; in general Python accepts every length-ten string of Unicode digit
characters. -/
theorem phone_valid_ascii_iff (s : String) (h : ∀ c ∈ s.data, c.toNat < 128) :
    Phone.is_valid s = (s.data.all asciiDigit && s.length == 10) := by
  obtain ⟨l⟩ := s
  rw [Phone.is_valid, pyStrIsDigit, all_pyIsDigitChar_of_ascii _ h]
  cases l with
  | nil => simp [String.length]
  | cons c cs =>
    simp [String.length, List.isEmpty]

/-- Witness for C4 at a ten-digit ASCII string. -/
theorem phone_valid_ascii_iff_witness :
    (∀ c ∈ ("0123456789" : String).data, c.toNat < 128) ∧
    Phone.is_valid "0123456789" =
      (("0123456789" : String).data.all asciiDigit && ("0123456789" : String).length == 10) :=
  ⟨by decide, phone_valid_ascii_iff "0123456789" (by decide)⟩

/-- C8 counterexample: strptime leniency accepts a one-digit day and month,
so 5.1.2020 validates although it does not match the fixed DD.MM.YYYY
pattern. -/
theorem birthday_valid_single_digit :
    Birthday.is_valid "5.1.2020" = true ∧ specStrictDDMMYYYY "5.1.2020" = false :=
  ⟨rfl, rfl⟩

/-- C8 (amended): on every string of the strict DD.MM.YYYY shape, validation
holds exactly when the denoted numbers form a real calendar date (so Feb 30
and months 00 and 13 are rejected and every real date is accepted); in
addition the parse is lenient, also accepting one-digit or two-digit day and
month fields. -/
theorem birthday_valid_strict_iff (s : String) (hs : specStrictDDMMYYYY s = true) :
    Birthday.is_valid s =
      realCalendarDate (specStrictDay s) (specStrictMonth s) (specStrictYear s) := by
  obtain ⟨l⟩ := s
  rcases l with _ | ⟨d1, l⟩
  · simp [specStrictDDMMYYYY] at hs
  rcases l with _ | ⟨d2, l⟩
  · simp [specStrictDDMMYYYY] at hs
  rcases l with _ | ⟨p1, l⟩
  · simp [specStrictDDMMYYYY] at hs
  rcases l with _ | ⟨m1, l⟩
  · simp [specStrictDDMMYYYY] at hs
  rcases l with _ | ⟨m2, l⟩
  · simp [specStrictDDMMYYYY] at hs
  rcases l with _ | ⟨p2, l⟩
  · simp [specStrictDDMMYYYY] at hs
  rcases l with _ | ⟨y1, l⟩
  · simp [specStrictDDMMYYYY] at hs
  rcases l with _ | ⟨y2, l⟩
  · simp [specStrictDDMMYYYY] at hs
  rcases l with _ | ⟨y3, l⟩
  · simp [specStrictDDMMYYYY] at hs
  rcases l with _ | ⟨y4, l⟩
  · simp [specStrictDDMMYYYY] at hs
  rcases l with _ | ⟨x, l⟩
  case cons.cons.cons.cons.cons.cons.cons.cons.cons.cons =>
    simp [specStrictDDMMYYYY] at hs
  simp only [specStrictDDMMYYYY, Bool.and_eq_true, beq_iff_eq] at hs
  obtain ⟨⟨hp1, hp2⟩, ⟨⟨⟨⟨⟨⟨⟨hd1, hd2⟩, hm1⟩, hm2⟩, hy1⟩, hy2⟩, hy3⟩, hy4⟩⟩ := hs
  subst hp1
  subst hp2
  have e1 : splitDots [d1, d2, '.', m1, m2, '.', y1, y2, y3, y4] =
      [[d1, d2], [m1, m2], [y1, y2, y3, y4]] := by
    simp [splitDots, asciiDigit_ne_dot d1 hd1, asciiDigit_ne_dot d2 hd2,
      asciiDigit_ne_dot m1 hm1, asciiDigit_ne_dot m2 hm2, asciiDigit_ne_dot y1 hy1,
      asciiDigit_ne_dot y2 hy2, asciiDigit_ne_dot y3 hy3, asciiDigit_ne_dot y4 hy4]
  rw [Birthday.is_valid, parseBirthday]
  simp only [e1]
  have hcond1 : ([d1, d2].all asciiDigit && ([d1, d2].length == 1 || [d1, d2].length == 2) &&
      [m1, m2].all asciiDigit && ([m1, m2].length == 1 || [m1, m2].length == 2) &&
      [y1, y2, y3, y4].all asciiDigit && [y1, y2, y3, y4].length == 4) = true := by
    simp [hd1, hd2, hm1, hm2, hy1, hy2, hy3, hy4]
  rw [if_pos hcond1]
  simp only [specStrictDay, specStrictMonth, specStrictYear]
  have hD : natOfDigits [d1, d2] = (d1.toNat - 48) * 10 + (d2.toNat - 48) := by
    simp [natOfDigits, List.foldl]
  have hM : natOfDigits [m1, m2] = (m1.toNat - 48) * 10 + (m2.toNat - 48) := by
    simp [natOfDigits, List.foldl]
  have hY : natOfDigits [y1, y2, y3, y4] =
      (((y1.toNat - 48) * 10 + (y2.toNat - 48)) * 10 + (y3.toNat - 48)) * 10 + (y4.toNat - 48) := by
    simp [natOfDigits, List.foldl]
  rw [hD, hM, hY]
  obtain ⟨bb1, bb2⟩ := asciiDigit_bounds d1 hd1
  obtain ⟨bb3, bb4⟩ := asciiDigit_bounds d2 hd2
  obtain ⟨bb5, bb6⟩ := asciiDigit_bounds m1 hm1
  obtain ⟨bb7, bb8⟩ := asciiDigit_bounds m2 hm2
  obtain ⟨bb9, bb10⟩ := asciiDigit_bounds y1 hy1
  obtain ⟨bb11, bb12⟩ := asciiDigit_bounds y2 hy2
  obtain ⟨bb13, bb14⟩ := asciiDigit_bounds y3 hy3
  obtain ⟨bb15, bb16⟩ := asciiDigit_bounds y4 hy4
  have hdim := daysInMonth_le_31
    ((((y1.toNat - 48) * 10 + (y2.toNat - 48)) * 10 + (y3.toNat - 48)) * 10 + (y4.toNat - 48))
    ((m1.toNat - 48) * 10 + (m2.toNat - 48))
  split
  next hC =>
    simp only [Option.isSome_some]
    simp only [Bool.and_eq_true, decide_eq_true_eq] at hC
    symm
    simp only [realCalendarDate, Bool.and_eq_true, decide_eq_true_eq]
    omega
  next hC =>
    simp only [Option.isSome_none]
    simp only [Bool.and_eq_true, decide_eq_true_eq, not_and] at hC
    symm
    rw [Bool.eq_false_iff]
    intro hR
    simp only [realCalendarDate, Bool.and_eq_true, decide_eq_true_eq] at hR
    push_neg at hC
    omega

/-- Witness for C8 at the strict-form leap date 29.02.2024. -/
theorem birthday_valid_strict_iff_witness :
    specStrictDDMMYYYY "29.02.2024" = true ∧
    Birthday.is_valid "29.02.2024" =
      realCalendarDate (specStrictDay "29.02.2024") (specStrictMonth "29.02.2024")
        (specStrictYear "29.02.2024") :=
  ⟨rfl, birthday_valid_strict_iff "29.02.2024" rfl⟩
